import Mathlib

/-!
Shallow embedding of `zcash_proofs/src/lib.rs` (the `load_parameters`
function and the digest-reader pipeline it uses), together with theorems
about the behaviour of parameter loading.

Modelling conventions:
* a byte is a `Nat` (values below 256 where it matters);
* a file on disk is a `List Nat`; the file system is a partial map from
  path strings to file contents;
* a Rust `panic!`/`expect` is an `Except.error` carrying the panic message;
* the external bellman codec (`Parameters::read`, `VerifyingKey::read`),
  the BLAKE2b-512 compression function and `prepare_verifying_key` are
  opaque external collaborators; the loader is parameterised over them.
  A codec call on a byte stream either fails or returns the parsed object
  together with the number of bytes it consumed from the stream.
-/

set_option autoImplicit false

namespace ZcashProofs

/-- Hex digit character for a nibble: `0`-`9` then `a`-`f` (lowercase),
as produced by Rust's `format!("{:02x}", c)`. -/
def hexDigit (n : Nat) : Char :=
  if n < 10 then Char.ofNat (48 + n) else Char.ofNat (87 + n)

/-- Hex encoding of a byte string, two lowercase hex characters per byte,
as produced by formatting each byte with `{:02x}`. -/
def toHex (bs : List Nat) : String :=
  String.mk (bs.foldr (fun b acc => hexDigit (b / 16 % 16) :: hexDigit (b % 16) :: acc) [])

/-- Numeric value of a lowercase hex digit character. -/
def hexVal (c : Char) : Nat :=
  if c.toNat ≥ 97 then c.toNat - 87 else c.toNat - 48

/-- Decode a list of hex characters into bytes, two characters per byte. -/
def hexDecodeChars : List Char → List Nat
  | a :: b :: rest => (hexVal a * 16 + hexVal b) :: hexDecodeChars rest
  | _ => []

/-- Decode a lowercase hex string into the byte string it denotes. -/
def hexDecode (s : String) : List Nat :=
  hexDecodeChars s.data

/-- Serialized verifying-key material, treated as opaque codec output. -/
abbrev VerifyingKeyData := List Nat

/-- Prepared verifying-key material, treated as opaque. -/
abbrev PreparedKeyData := List Nat

/-- A bellman `Parameters<Bls12>` proving-key object as produced by the
external codec: it embeds its verifying key (the `vk` field accessed by
`load_parameters`) plus further opaque proving-key material. -/
structure Params where
  vk : VerifyingKeyData
  extra : List Nat
  deriving DecidableEq

/-- Modelled from the spec: `hashreader.rs` is not under `src/`. The
Digest Reader wraps a byte source; every byte read through it is fed to
an incremental BLAKE2b-512 state. For the loader we model the wrapped
(buffered, infallible) file source as the list of its remaining bytes,
and record the bytes fed to the hash state so far. -/
structure HashReader where
  consumed : List Nat
  rem : List Nat
  deriving DecidableEq

/-- Wrap a byte source in a Digest Reader; nothing has been read yet. -/
def HashReader.new (src : List Nat) : HashReader :=
  ⟨[], src⟩

/-- Read `n` bytes through the reader (as the external codec does while
deserializing the structured prefix): the bytes delivered are removed
from the source and fed to the hash state. -/
def HashReader.consume (r : HashReader) (n : Nat) : HashReader :=
  ⟨r.consumed ++ r.rem.take n, r.rem.drop n⟩

/-- Read and discard all remaining bytes to end-of-input (the
`io::copy(&mut fs, &mut sink)` drain step): every remaining byte passes
through the reader and is fed to the hash state. -/
def HashReader.drain (r : HashReader) : HashReader :=
  ⟨r.consumed ++ r.rem, []⟩

/-- Modelled from the spec: finalize the reader, returning the BLAKE2b
digest of all bytes fed so far, formatted as a lowercase hex string
(`into_hash` in `hashreader.rs`). `hash` is the opaque BLAKE2b-512
primitive mapping a byte string to its 64-byte digest. -/
def HashReader.into_hash (hash : List Nat → List Nat) (r : HashReader) : String :=
  toHex (hash r.consumed)

/-- Compiled-in expected whole-file digest of the Sapling spend
parameters (the `SAPLING_SPEND_HASH` constant). -/
def SAPLING_SPEND_HASH : String :=
  "25fd9a0d1c1be0526c14662947ae95b758fe9f3d7fb7f55e9b4437830dcc6215a7ce3ea465914b157715b7a4d681389ea4aa84438190e185d5e4c93574d3a19a"

/-- Compiled-in expected whole-file digest of the Sapling output
parameters (the `SAPLING_OUTPUT_HASH` constant). -/
def SAPLING_OUTPUT_HASH : String :=
  "a1cb23b93256adce5bce2cb09cefbc96a1d16572675ceb691e9a3626ec15b5b546926ff1c536cfe3a9df07d796b32fdfc3e5d99d65567257bf286cd2858d71a6"

/-- Compiled-in expected digest of the Sprout parameters: the sentinel
value `"_"` (the `SPROUT_HASH` constant). -/
def SPROUT_HASH : String := "_"

/-- The tuple returned by `load_parameters` on success:
`(spend proving key, spend prepared vk, output proving key,
output prepared vk, optional sprout prepared vk)`. -/
structure LoadedParams where
  spend_params : Params
  spend_vk : PreparedKeyData
  output_params : Params
  output_vk : PreparedKeyData
  sprout_vk : Option PreparedKeyData
  deriving DecidableEq

/-- The "open the sprout file" step: the optional path is only opened
when supplied, and a failing open of a supplied path panics with the
Sprout open message. -/
def openSprout (fs : String → Option (List Nat)) :
    Option String → Except String (Option (List Nat))
  | none => .ok none
  | some p =>
    match fs p with
    | some b => .ok (some b)
    | none => .error "couldn't load Sprout groth16 parameters file"

/-- The "deserialize the Sprout verifying key" step: applied only when a
sprout reader is present; the verifying key is parsed from the front of
the file through the Digest Reader, and a parse failure panics with the
Sprout deserialization message. -/
def readSproutVk (readVk : List Nat → Option (VerifyingKeyData × Nat)) :
    Option HashReader → Except String (Option (VerifyingKeyData × HashReader))
  | none => .ok none
  | some r =>
    match readVk r.rem with
    | some x => .ok (some (x.1, r.consume x.2))
    | none => .error "couldn't deserialize Sprout Groth16 verifying key"

/-- Steps 1-5 of `load_parameters` (open, wrap, deserialize prefix,
drain, verify digests), returning the parsed spend proving key, output
proving key and optional sprout verifying key. Verifying-key preparation
(step 6) is applied by `load_parameters` on top of this. Arguments:
`readParams` is `Parameters::<Bls12>::read` (checked flag, stream);
`readVk` is `VerifyingKey::<Bls12>::read`; `hash` is BLAKE2b-512;
`fs` maps a path to the file content behind it, if it opens. -/
def load_parameters_inner
    (readParams : Bool → List Nat → Option (Params × Nat))
    (readVk : List Nat → Option (VerifyingKeyData × Nat))
    (hash : List Nat → List Nat)
    (fs : String → Option (List Nat))
    (spend_path output_path : String)
    (sprout_path : Option String) :
    Except String (Params × Params × Option VerifyingKeyData) :=
  match fs spend_path with
  | none => .error "couldn't load Sapling spend parameters file"
  | some spend_bytes =>
  match fs output_path with
  | none => .error "couldn't load Sapling output parameters file"
  | some output_bytes =>
  match openSprout fs sprout_path with
  | .error e => .error e
  | .ok sprout_bytes =>
  match readParams false (HashReader.new spend_bytes).rem with
  | none => .error "couldn't deserialize Sapling spend parameters file"
  | some (spend_params, n1) =>
  match readParams false (HashReader.new output_bytes).rem with
  | none => .error "couldn't deserialize Sapling spend parameters file"
  | some (output_params, n2) =>
  match readSproutVk readVk (sprout_bytes.map HashReader.new) with
  | .error e => .error e
  | .ok sproutParsed =>
  let spend_fs := ((HashReader.new spend_bytes).consume n1).drain
  let output_fs := ((HashReader.new output_bytes).consume n2).drain
  let sprout_fs := sproutParsed.map (fun y => y.2.drain)
  let sprout_vk := sproutParsed.map (fun y => y.1)
  if HashReader.into_hash hash spend_fs ≠ SAPLING_SPEND_HASH then
    .error "Sapling spend parameter file is not correct, please clean your `~/.zcash-params/` and re-run `fetch-params`."
  else if HashReader.into_hash hash output_fs ≠ SAPLING_OUTPUT_HASH then
    .error "Sapling output parameter file is not correct, please clean your `~/.zcash-params/` and re-run `fetch-params`."
  else if (sprout_fs.map (fun r => decide (HashReader.into_hash hash r ≠ SPROUT_HASH))).getD false then
    .error "Sprout groth16 parameter file is not correct, please clean your `~/.zcash-params/` and re-run `fetch-params`."
  else
    .ok (spend_params, output_params, sprout_vk)

/-- The `load_parameters` entry point: after the pipeline of
`load_parameters_inner` succeeds, prepare each verifying key
(`prepare_verifying_key`, passed in as the opaque `prepare`) and return
the finished tuple. A Rust panic is an `Except.error` carrying the
panic message. -/
def load_parameters
    (readParams : Bool → List Nat → Option (Params × Nat))
    (readVk : List Nat → Option (VerifyingKeyData × Nat))
    (hash : List Nat → List Nat)
    (prepare : VerifyingKeyData → PreparedKeyData)
    (fs : String → Option (List Nat))
    (spend_path output_path : String)
    (sprout_path : Option String) :
    Except String LoadedParams :=
  (load_parameters_inner readParams readVk hash fs spend_path output_path sprout_path).map
    (fun x => ⟨x.1, prepare x.1.vk, x.2.1, prepare x.2.1.vk, x.2.2.map prepare⟩)

/-- Modelled from the spec: the outcome of one `read` call on the
underlying byte source — either a successfully delivered chunk of bytes
(a delivered empty chunk signals end-of-input) or an error code. -/
inductive ReadOutcome where
  | ok (chunk : List Nat)
  | err (e : Nat)
  deriving DecidableEq

/-- The bytes a read outcome actually delivered: the chunk on success,
nothing on a read error. -/
def ReadOutcome.delivered : ReadOutcome → List Nat
  | .ok c => c
  | .err _ => []

/-- Modelled from the spec: the general Digest Reader contract of
`hashreader.rs` over a fallible byte source. The source is the sequence
of outcomes the underlying reads will produce; `fed` records the bytes
fed into the incremental hash state so far. -/
structure HashReaderF where
  source : List ReadOutcome
  fed : List Nat
  deriving DecidableEq

/-- Wrap a byte source: no bytes have been fed to the hash state yet. -/
def HashReaderF.new (s : List ReadOutcome) : HashReaderF :=
  ⟨s, []⟩

/-- One `read` call: perform the underlying read and return exactly its
outcome; every byte actually delivered is fed to the hash state, and a
propagated read error leaves the hash state untouched. An exhausted
source reports end-of-input (an empty delivered chunk). -/
def HashReaderF.read : HashReaderF → ReadOutcome × HashReaderF
  | ⟨[], fed⟩ => (.ok [], ⟨[], fed⟩)
  | ⟨.ok c :: rest, fed⟩ => (.ok c, ⟨rest, fed ++ c⟩)
  | ⟨.err e :: rest, fed⟩ => (.err e, ⟨rest, fed⟩)

/-- Call `read` until the source is exhausted (reading the wrapped byte
sequence fully). -/
def HashReaderF.readAll : HashReaderF → HashReaderF
  | ⟨[], fed⟩ => ⟨[], fed⟩
  | ⟨.ok c :: rest, fed⟩ => HashReaderF.readAll ⟨rest, fed ++ c⟩
  | ⟨.err _ :: rest, fed⟩ => HashReaderF.readAll ⟨rest, fed⟩
termination_by r => r.source.length

/-- Modelled from the spec: the terminal `into_digest` / `into_hash`
operation, consuming the wrapper and returning the hex-formatted digest
of the bytes fed so far. -/
def HashReaderF.into_hash (hash : List Nat → List Nat) (r : HashReaderF) : String :=
  toHex (hash r.fed)

/-- A byte source over a byte sequence split into chunks, all of whose
reads succeed. -/
def okSource (chunks : List (List Nat)) : List ReadOutcome :=
  chunks.map ReadOutcome.ok

theorem foldrHex_length (bs : List Nat) :
    (bs.foldr (fun b acc => hexDigit (b / 16 % 16) :: hexDigit (b % 16) :: acc) []).length
      = 2 * bs.length := by
  induction bs with
  | nil => rfl
  | cons b t ih => simp [List.foldr, ih]; omega

theorem toHex_length (bs : List Nat) : (toHex bs).length = 2 * bs.length := by
  have h : (toHex bs).length
      = (bs.foldr (fun b acc => hexDigit (b / 16 % 16) :: hexDigit (b % 16) :: acc) []).length := rfl
  rw [h, foldrHex_length]

theorem toHex_ne_sentinel (bs : List Nat) (h : bs.length = 64) : toHex bs ≠ SPROUT_HASH := by
  intro heq
  have hl := congrArg String.length heq
  rw [toHex_length, h] at hl
  exact absurd hl (by decide)

theorem consume_drain_consumed (f : List Nat) (n : Nat) :
    (((HashReader.new f).consume n).drain).consumed = f := by
  simp [HashReader.new, HashReader.consume, HashReader.drain]

theorem exceptMap_eq_ok_iff {α β : Type} (x : Except String α) (f : α → β) (r : β) :
    x.map f = .ok r ↔ ∃ a, x = .ok a ∧ r = f a := by
  cases x <;> simp [Except.map, eq_comm]

theorem exceptMap_eq_error_iff {α β : Type} (x : Except String α) (f : α → β) (e : String) :
    x.map f = .error e ↔ x = .error e := by
  cases x <;> simp [Except.map]

theorem into_hash_consume_drain
    (hash : List Nat → List Nat) (f : List Nat) (n : Nat) :
    HashReader.into_hash hash (((HashReader.new f).consume n).drain) = toHex (hash f) := by
  rw [HashReader.into_hash, consume_drain_consumed]

/-- C3: for every parameter file processed by `load_parameters`, the
per-file pipeline wrap → deserialize a prefix of `n` bytes → drain the
remainder → finalize yields exactly the digest of the whole file
content, whatever the structured prefix length `n` was — i.e. the
digest an independent whole-file hash of the same bytes would produce. -/
theorem load_parameters_digest_covers_whole_file
    (hash : List Nat → List Nat) (f : List Nat) (n : Nat) :
    HashReader.into_hash hash (((HashReader.new f).consume n).drain) = toHex (hash f) := by
  rw [HashReader.into_hash, consume_drain_consumed]

theorem load_parameters_inner_ok_digests
    (rp : Bool → List Nat → Option (Params × Nat))
    (rv : List Nat → Option (VerifyingKeyData × Nat))
    (hash : List Nat → List Nat)
    (fs : String → Option (List Nat))
    (sp op : String) (spr : Option String)
    (r : Params × Params × Option VerifyingKeyData)
    (h : load_parameters_inner rp rv hash fs sp op spr = .ok r) :
    (∀ sb, fs sp = some sb → toHex (hash sb) = SAPLING_SPEND_HASH) ∧
    (∀ ob, fs op = some ob → toHex (hash ob) = SAPLING_OUTPUT_HASH) ∧
    (∀ p pb, spr = some p → fs p = some pb → toHex (hash pb) = SPROUT_HASH) := by
  unfold load_parameters_inner at h
  rcases hsp : fs sp with _ | sb
  · rw [hsp] at h; exact Except.noConfusion h
  rw [hsp] at h
  rcases hop : fs op with _ | ob
  · rw [hop] at h; exact Except.noConfusion h
  rw [hop] at h
  rcases spr with _ | p
  · simp only [openSprout] at h
    rcases h1 : rp false (HashReader.new sb).rem with _ | ⟨p1, n1⟩
    · rw [h1] at h; exact Except.noConfusion h
    rw [h1] at h
    rcases h2 : rp false (HashReader.new ob).rem with _ | ⟨p2, n2⟩
    · rw [h2] at h; exact Except.noConfusion h
    rw [h2] at h
    simp only [Option.map_none', readSproutVk, Option.map_none', Option.getD] at h
    split at h
    · exact Except.noConfusion h
    rename_i hc1
    split at h
    · exact Except.noConfusion h
    rename_i hc2
    refine ⟨?_, ?_, ?_⟩
    · intro sb' hsb'
      injection hsb' with e
      subst e
      have := not_not.mp hc1
      rwa [into_hash_consume_drain] at this
    · intro ob' hob'
      injection hob' with e
      subst e
      have := not_not.mp hc2
      rwa [into_hash_consume_drain] at this
    · intro p pb hp
      exact absurd hp (by simp)
  · rcases hfp : fs p with _ | pb
    · simp only [openSprout, hfp] at h
      exact Except.noConfusion h
    simp only [openSprout, hfp] at h
    rcases h1 : rp false (HashReader.new sb).rem with _ | ⟨p1, n1⟩
    · rw [h1] at h; exact Except.noConfusion h
    rw [h1] at h
    rcases h2 : rp false (HashReader.new ob).rem with _ | ⟨p2, n2⟩
    · rw [h2] at h; exact Except.noConfusion h
    rw [h2] at h
    simp only [Option.map_some', readSproutVk] at h
    rcases h3 : rv (HashReader.new pb).rem with _ | ⟨vk3, n3⟩
    · rw [h3] at h; exact Except.noConfusion h
    rw [h3] at h
    simp only [Option.map_some', Option.getD] at h
    split at h
    · exact Except.noConfusion h
    rename_i hc1
    split at h
    · exact Except.noConfusion h
    rename_i hc2
    split at h
    · exact Except.noConfusion h
    rename_i hc3
    refine ⟨?_, ?_, ?_⟩
    · intro sb' hsb'
      injection hsb' with e
      subst e
      have := not_not.mp hc1
      rwa [into_hash_consume_drain] at this
    · intro ob' hob'
      injection hob' with e
      subst e
      have := not_not.mp hc2
      rwa [into_hash_consume_drain] at this
    · intro p' pb' hp' hpb'
      injection hp' with ep
      subst ep
      rw [hfp] at hpb'
      injection hpb' with e
      subst e
      have : HashReader.into_hash hash (((HashReader.new pb).consume n3).drain) = SPROUT_HASH := by
        simpa using hc3
      rwa [into_hash_consume_drain] at this

/-- Modelled from the spec: bellman's `prepare_verifying_key` is an
external collaborator not under `src/`. The spec describes it as a pure,
deterministic, one-way precomputation on a verifying key with no I/O;
its result is opaque, so we model it as tagging the verifying-key
material as prepared. -/
def prepare_verifying_key (vk : VerifyingKeyData) : PreparedKeyData :=
  0 :: vk

/-- Whether a loading outcome is a fatal failure (a Rust panic). -/
def isError {α : Type} : Except String α → Bool
  | .error _ => true
  | .ok _ => false

/-- C1: if digest enforcement fails for any file — the spend or output
file's whole-file digest differs from its compiled-in expected constant,
or a supplied sprout file's digest differs from `SPROUT_HASH` — then
`load_parameters` does not return: whatever the preparation function,
the call ends in a fatal error, so no proving key and no prepared
verifying key derived from any of the files is handed to the caller and
no verifying-key preparation result is observable. -/
theorem load_parameters_no_key_material_on_digest_mismatch
    (rp : Bool → List Nat → Option (Params × Nat))
    (rv : List Nat → Option (VerifyingKeyData × Nat))
    (hash : List Nat → List Nat)
    (prepare : VerifyingKeyData → PreparedKeyData)
    (fs : String → Option (List Nat))
    (sp op : String) (spr : Option String)
    (hmis : (∃ sb, fs sp = some sb ∧ toHex (hash sb) ≠ SAPLING_SPEND_HASH) ∨
            (∃ ob, fs op = some ob ∧ toHex (hash ob) ≠ SAPLING_OUTPUT_HASH) ∨
            (∃ p pb, spr = some p ∧ fs p = some pb ∧ toHex (hash pb) ≠ SPROUT_HASH)) :
    isError (load_parameters rp rv hash prepare fs sp op spr) = true := by
  rcases hres : load_parameters_inner rp rv hash fs sp op spr with e | r
  · rw [load_parameters, hres]
    rfl
  · exfalso
    obtain ⟨c1, c2, c3⟩ := load_parameters_inner_ok_digests rp rv hash fs sp op spr r hres
    rcases hmis with ⟨sb, h1, h2⟩ | ⟨ob, h1, h2⟩ | ⟨p, pb, h0, h1, h2⟩
    · exact h2 (c1 sb h1)
    · exact h2 (c2 ob h1)
    · exact h2 (c3 p pb h0 h1)

theorem load_parameters_no_key_material_on_digest_mismatch_witness :
    ((fun p => if p = "spend" then some [0] else if p = "output" then some [1] else none)
        "spend" = some [0]
      ∧ toHex ((fun _ => List.replicate 64 0) [0]) ≠ SAPLING_SPEND_HASH)
    ∧ isError (load_parameters (fun _ _ => some (⟨[5], []⟩, 0)) (fun _ => some ([6], 0))
        (fun _ => List.replicate 64 0) prepare_verifying_key
        (fun p => if p = "spend" then some [0] else if p = "output" then some [1] else none)
        "spend" "output" none) = true := by
  constructor
  · exact ⟨rfl, by decide⟩
  · exact load_parameters_no_key_material_on_digest_mismatch _ _ _ _ _ _ _ _
      (Or.inl ⟨[0], rfl, by decide⟩)

theorem inner_eval_no_sprout
    (rp : Bool → List Nat → Option (Params × Nat))
    (rv : List Nat → Option (VerifyingKeyData × Nat))
    (hash : List Nat → List Nat)
    (fs : String → Option (List Nat))
    (sp op : String) (sb ob : List Nat) (p1 p2 : Params) (n1 n2 : Nat)
    (hsp : fs sp = some sb) (hop : fs op = some ob)
    (h1 : rp false sb = some (p1, n1)) (h2 : rp false ob = some (p2, n2)) :
    load_parameters_inner rp rv hash fs sp op none =
      if toHex (hash sb) ≠ SAPLING_SPEND_HASH then
        .error "Sapling spend parameter file is not correct, please clean your `~/.zcash-params/` and re-run `fetch-params`."
      else if toHex (hash ob) ≠ SAPLING_OUTPUT_HASH then
        .error "Sapling output parameter file is not correct, please clean your `~/.zcash-params/` and re-run `fetch-params`."
      else .ok (p1, p2, none) := by
  have h1' : rp false (HashReader.new sb).rem = some (p1, n1) := h1
  have h2' : rp false (HashReader.new ob).rem = some (p2, n2) := h2
  simp only [load_parameters_inner, hsp, hop, openSprout, h1', h2', Option.map_none',
    readSproutVk, Option.getD, into_hash_consume_drain]
  rfl

theorem inner_eval_sprout
    (rp : Bool → List Nat → Option (Params × Nat))
    (rv : List Nat → Option (VerifyingKeyData × Nat))
    (hash : List Nat → List Nat)
    (fs : String → Option (List Nat))
    (sp op p : String) (sb ob pb : List Nat) (p1 p2 : Params)
    (vk3 : VerifyingKeyData) (n1 n2 n3 : Nat)
    (hsp : fs sp = some sb) (hop : fs op = some ob) (hfp : fs p = some pb)
    (h1 : rp false sb = some (p1, n1)) (h2 : rp false ob = some (p2, n2))
    (h3 : rv pb = some (vk3, n3)) :
    load_parameters_inner rp rv hash fs sp op (some p) =
      if toHex (hash sb) ≠ SAPLING_SPEND_HASH then
        .error "Sapling spend parameter file is not correct, please clean your `~/.zcash-params/` and re-run `fetch-params`."
      else if toHex (hash ob) ≠ SAPLING_OUTPUT_HASH then
        .error "Sapling output parameter file is not correct, please clean your `~/.zcash-params/` and re-run `fetch-params`."
      else if toHex (hash pb) ≠ SPROUT_HASH then
        .error "Sprout groth16 parameter file is not correct, please clean your `~/.zcash-params/` and re-run `fetch-params`."
      else .ok (p1, p2, some vk3) := by
  have h1' : rp false (HashReader.new sb).rem = some (p1, n1) := h1
  have h2' : rp false (HashReader.new ob).rem = some (p2, n2) := h2
  have h3' : rv (HashReader.new pb).rem = some (vk3, n3) := h3
  simp only [load_parameters_inner, hsp, hop, openSprout, hfp, h1', h2', h3',
    Option.map_some', readSproutVk, Option.getD, into_hash_consume_drain]
  by_cases c1 : toHex (hash sb) ≠ SAPLING_SPEND_HASH
  · simp [c1]
  by_cases c2 : toHex (hash ob) ≠ SAPLING_OUTPUT_HASH
  · simp [c1, c2]
  by_cases c3 : toHex (hash pb) ≠ SPROUT_HASH
  · simp [c1, c2, c3]
  · simp [c1, c2, c3]

/-- C2: for each mandatory parameter file, when its finalized whole-file
digest differs from its compiled-in expected digest (all files having
opened and deserialized, so the digest check is reached),
`load_parameters` fails fatally with the diagnostic that names that very
file and instructs the operator to clean `~/.zcash-params/` and re-run
`fetch-params`; an error is returned instead of any (even partial)
tuple of key material. -/
theorem load_parameters_mandatory_digest_mismatch_diagnostics
    (rp : Bool → List Nat → Option (Params × Nat))
    (rv : List Nat → Option (VerifyingKeyData × Nat))
    (hash : List Nat → List Nat)
    (prepare : VerifyingKeyData → PreparedKeyData)
    (fs : String → Option (List Nat))
    (sp op : String) (spr : Option String)
    (sb ob : List Nat) (p1 p2 : Params) (n1 n2 : Nat)
    (hsp : fs sp = some sb) (hop : fs op = some ob)
    (h1 : rp false sb = some (p1, n1)) (h2 : rp false ob = some (p2, n2))
    (hos : match spr with
      | none => True
      | some p => ∃ pb vk3 n3, fs p = some pb ∧ rv pb = some (vk3, n3)) :
    (toHex (hash sb) ≠ SAPLING_SPEND_HASH →
      load_parameters rp rv hash prepare fs sp op spr =
        .error "Sapling spend parameter file is not correct, please clean your `~/.zcash-params/` and re-run `fetch-params`.")
    ∧ (toHex (hash sb) = SAPLING_SPEND_HASH → toHex (hash ob) ≠ SAPLING_OUTPUT_HASH →
      load_parameters rp rv hash prepare fs sp op spr =
        .error "Sapling output parameter file is not correct, please clean your `~/.zcash-params/` and re-run `fetch-params`.") := by
  rcases spr with _ | p
  · have key := inner_eval_no_sprout rp rv hash fs sp op sb ob p1 p2 n1 n2 hsp hop h1 h2
    constructor
    · intro hmis
      rw [load_parameters, key, if_pos hmis]
      rfl
    · intro hok hmis
      rw [load_parameters, key, if_neg (by simp [hok]), if_pos hmis]
      rfl
  · obtain ⟨pb, vk3, n3, hfp, h3⟩ := hos
    have key := inner_eval_sprout rp rv hash fs sp op p sb ob pb p1 p2 vk3 n1 n2 n3
      hsp hop hfp h1 h2 h3
    constructor
    · intro hmis
      rw [load_parameters, key, if_pos hmis]
      rfl
    · intro hok hmis
      rw [load_parameters, key, if_neg (by simp [hok]), if_pos hmis]
      rfl

/-- A concrete test file system: a one-byte spend file `[0]`, a one-byte
output file `[1]` and a one-byte sprout file `[2]`. -/
def fsW : String → Option (List Nat) := fun p =>
  if p = "spend" then some [0]
  else if p = "output" then some [1]
  else if p = "sprout" then some [2] else none

/-- A concrete test codec for proving keys: always succeeds, consuming
no bytes. -/
def rpW : Bool → List Nat → Option (Params × Nat) := fun _ _ => some (⟨[5], []⟩, 0)

/-- A concrete test codec for verifying keys: always succeeds, consuming
no bytes. -/
def rvW : List Nat → Option (VerifyingKeyData × Nat) := fun _ => some ([6], 0)

/-- A concrete test hash under which no file digest matches a compiled-in
constant. -/
def hashW0 : List Nat → List Nat := fun _ => List.replicate 64 0

/-- A concrete test hash under which the spend file `[0]` and output file
`[1]` of `fsW` hash to their expected digests, and every other input
(including the sprout file `[2]`) hashes to 64 zero bytes. -/
def hashW : List Nat → List Nat := fun b =>
  if b = [0] then hexDecode SAPLING_SPEND_HASH
  else if b = [1] then hexDecode SAPLING_OUTPUT_HASH
  else List.replicate 64 0

/-- A concrete test hash under which the spend file `[0]` of `fsW` hashes
to its expected digest but every other input does not. -/
def hashW1 : List Nat → List Nat := fun b =>
  if b = [0] then hexDecode SAPLING_SPEND_HASH
  else List.replicate 64 0

theorem load_parameters_mandatory_digest_mismatch_diagnostics_witness :
    (load_parameters rpW rvW hashW0 prepare_verifying_key fsW "spend" "output" (some "sprout") =
      .error "Sapling spend parameter file is not correct, please clean your `~/.zcash-params/` and re-run `fetch-params`.")
    ∧ (load_parameters rpW rvW hashW1 prepare_verifying_key fsW "spend" "output" none =
      .error "Sapling output parameter file is not correct, please clean your `~/.zcash-params/` and re-run `fetch-params`.") := by
  constructor
  · exact (load_parameters_mandatory_digest_mismatch_diagnostics rpW rvW hashW0
      prepare_verifying_key fsW "spend" "output" (some "sprout") [0] [1] ⟨[5], []⟩ ⟨[5], []⟩ 0 0
      rfl rfl rfl rfl ⟨[2], [6], 0, rfl, rfl⟩).1 (by decide)
  · exact (load_parameters_mandatory_digest_mismatch_diagnostics rpW rvW hashW1
      prepare_verifying_key fsW "spend" "output" none [0] [1] ⟨[5], []⟩ ⟨[5], []⟩ 0 0
      rfl rfl rfl rfl trivial).2 (by decide) (by decide)

/-- C7: given a spend file and an output file that open, deserialize and
hash to their compiled-in expected digests, and no sprout path,
`load_parameters` returns the five-element tuple whose first four
elements are the spend proving key, the prepared spend verifying key,
the output proving key and the prepared output verifying key, and whose
fifth element is the explicit absent marker `none`. -/
theorem load_parameters_success_no_sprout
    (rp : Bool → List Nat → Option (Params × Nat))
    (rv : List Nat → Option (VerifyingKeyData × Nat))
    (hash : List Nat → List Nat)
    (prepare : VerifyingKeyData → PreparedKeyData)
    (fs : String → Option (List Nat))
    (sp op : String) (sb ob : List Nat) (p1 p2 : Params) (n1 n2 : Nat)
    (hsp : fs sp = some sb) (hop : fs op = some ob)
    (h1 : rp false sb = some (p1, n1)) (h2 : rp false ob = some (p2, n2))
    (hd1 : toHex (hash sb) = SAPLING_SPEND_HASH)
    (hd2 : toHex (hash ob) = SAPLING_OUTPUT_HASH) :
    load_parameters rp rv hash prepare fs sp op none =
      .ok ⟨p1, prepare p1.vk, p2, prepare p2.vk, none⟩ := by
  rw [load_parameters, inner_eval_no_sprout rp rv hash fs sp op sb ob p1 p2 n1 n2 hsp hop h1 h2,
    if_neg (by simp [hd1]), if_neg (by simp [hd2])]
  rfl

theorem load_parameters_success_no_sprout_witness :
    load_parameters rpW rvW hashW prepare_verifying_key fsW "spend" "output" none =
      .ok ⟨⟨[5], []⟩, prepare_verifying_key [5], ⟨[5], []⟩, prepare_verifying_key [5], none⟩ :=
  load_parameters_success_no_sprout rpW rvW hashW prepare_verifying_key fsW
    "spend" "output" [0] [1] ⟨[5], []⟩ ⟨[5], []⟩ 0 0
    rfl rfl rfl rfl (by decide) (by decide)

/-- C6: failure to open the spend path or the output path is fatal with
the corresponding open diagnostic; a supplied sprout path that fails to
open is fatal too, never silently skipped; and when no sprout path is
supplied the loader's behaviour depends on the file system only through
the two mandatory paths, so no other file is ever opened. -/
theorem load_parameters_open_failure_handling
    (rp : Bool → List Nat → Option (Params × Nat))
    (rv : List Nat → Option (VerifyingKeyData × Nat))
    (hash : List Nat → List Nat)
    (prepare : VerifyingKeyData → PreparedKeyData)
    (fs : String → Option (List Nat))
    (sp op : String) :
    (fs sp = none → ∀ spr, load_parameters rp rv hash prepare fs sp op spr =
      .error "couldn't load Sapling spend parameters file")
    ∧ (∀ sb, fs sp = some sb → fs op = none → ∀ spr,
      load_parameters rp rv hash prepare fs sp op spr =
        .error "couldn't load Sapling output parameters file")
    ∧ (∀ sb ob p, fs sp = some sb → fs op = some ob → fs p = none →
      load_parameters rp rv hash prepare fs sp op (some p) =
        .error "couldn't load Sprout groth16 parameters file")
    ∧ (∀ fs' : String → Option (List Nat), fs' sp = fs sp → fs' op = fs op →
      load_parameters rp rv hash prepare fs sp op none =
        load_parameters rp rv hash prepare fs' sp op none) := by
  refine ⟨?_, ?_, ?_, ?_⟩
  · intro h spr
    simp [load_parameters, load_parameters_inner, h, Except.map]
  · intro sb h1 h2 spr
    simp [load_parameters, load_parameters_inner, h1, h2, Except.map]
  · intro sb ob p h1 h2 h3
    simp [load_parameters, load_parameters_inner, openSprout, h1, h2, h3, Except.map]
  · intro fs' e1 e2
    simp only [load_parameters, load_parameters_inner, openSprout, e1, e2]

theorem load_parameters_open_failure_handling_witness :
    (load_parameters rpW rvW hashW prepare_verifying_key (fun _ => none)
      "spend" "output" (some "sprout") = .error "couldn't load Sapling spend parameters file")
    ∧ (load_parameters rpW rvW hashW prepare_verifying_key
      (fun p => if p = "spend" then some [0] else none)
      "spend" "output" (some "sprout") = .error "couldn't load Sapling output parameters file")
    ∧ (load_parameters rpW rvW hashW prepare_verifying_key fsW
      "spend" "output" (some "missing") = .error "couldn't load Sprout groth16 parameters file")
    ∧ (load_parameters rpW rvW hashW prepare_verifying_key fsW "spend" "output" none =
      load_parameters rpW rvW hashW prepare_verifying_key
        (fun p => if p = "spend" then some [0] else if p = "output" then some [1] else none)
        "spend" "output" none) := by
  refine ⟨?_, ?_, ?_, ?_⟩
  · exact (load_parameters_open_failure_handling rpW rvW hashW prepare_verifying_key
      (fun _ => none) "spend" "output").1 rfl (some "sprout")
  · exact (load_parameters_open_failure_handling rpW rvW hashW prepare_verifying_key
      (fun p => if p = "spend" then some [0] else none) "spend" "output").2.1
      [0] rfl (by decide) (some "sprout")
  · exact (load_parameters_open_failure_handling rpW rvW hashW prepare_verifying_key
      fsW "spend" "output").2.2.1 [0] [1] "missing" rfl rfl (by decide)
  · exact (load_parameters_open_failure_handling rpW rvW hashW prepare_verifying_key
      fsW "spend" "output").2.2.2
      (fun p => if p = "spend" then some [0] else if p = "output" then some [1] else none)
      rfl rfl

/-- C4: evaluation of the code at the failing input. A sprout path is
supplied; the sprout file opens and its verifying key deserializes; the
spend and output files hash to their expected digests. The claim says
the sentinel `SPROUT_HASH = "_"` short-circuits the sprout digest check
so the file is accepted and a prepared sprout verifying key returned;
instead the comparison is executed, the 128-character hex digest can
never equal the one-character sentinel, and `load_parameters` panics
with the sprout integrity diagnostic, returning nothing. -/
theorem sprout_sentinel_unconditionally_rejects :
    load_parameters rpW rvW hashW prepare_verifying_key fsW "spend" "output" (some "sprout") =
      .error "Sprout groth16 parameter file is not correct, please clean your `~/.zcash-params/` and re-run `fetch-params`." := by
  rw [load_parameters,
    inner_eval_sprout rpW rvW hashW fsW "spend" "output" "sprout" [0] [1] [2]
      ⟨[5], []⟩ ⟨[5], []⟩ [6] 0 0 0 rfl rfl rfl rfl rfl rfl,
    if_neg (by decide), if_neg (by decide), if_pos (by decide)]
  rfl

/-- A concrete test codec that deserializes the spend file `[0]` of
`fsW` but fails on every other input, in particular on the output file
`[1]`: its structured prefix is malformed. -/
def rpFailOut : Bool → List Nat → Option (Params × Nat) := fun _ b =>
  if b = [0] then some (⟨[5], []⟩, 0) else none

/-- C5: evaluation of the code at the failing input. The spend file
deserializes but the output file's structured prefix is malformed. The
claim says the resulting diagnostic identifies the offending file (the
output file); instead the code's `expect` message for the output
deserialization names the spend file. -/
theorem output_deser_diagnostic_names_spend_file :
    load_parameters rpFailOut rvW hashW prepare_verifying_key fsW "spend" "output" none =
      .error "couldn't deserialize Sapling spend parameters file" := by
  rfl

theorem readAll_okSource (chunks : List (List Nat)) (fed : List Nat) :
    HashReaderF.readAll ⟨okSource chunks, fed⟩ = ⟨[], fed ++ chunks.flatten⟩ := by
  induction chunks generalizing fed with
  | nil => simp [okSource, HashReaderF.readAll]
  | cons c t ih => simpa [okSource, HashReaderF.readAll, List.append_assoc] using ih (fed ++ c)

/-- C8: the Digest Reader contract. Reading a byte sequence `B`
(delivered as any sequence of successful chunks) fully through the
Digest Reader and finalizing yields exactly the digest of `B` as a hex
string, of fixed length 128 when the hash is 512-bit; and each single
`read` returns exactly the underlying read's outcome, feeding only the
bytes actually delivered into the hash state — a propagated read error
leaves the hash state untouched, and an exhausted source reports
end-of-input without changing anything. -/
theorem hashreader_digest_and_read_contract
    (hash : List Nat → List Nat) (chunks : List (List Nat)) :
    (HashReaderF.into_hash hash (HashReaderF.readAll (HashReaderF.new (okSource chunks)))
      = toHex (hash chunks.flatten))
    ∧ ((∀ b, (hash b).length = 64) →
      (HashReaderF.into_hash hash
        (HashReaderF.readAll (HashReaderF.new (okSource chunks)))).length = 128)
    ∧ (∀ (r : HashReaderF) (o : ReadOutcome) (rest : List ReadOutcome),
      r.source = o :: rest → r.read = (o, ⟨rest, r.fed ++ o.delivered⟩))
    ∧ (∀ r : HashReaderF, r.source = [] → r.read = (.ok [], r)) := by
  refine ⟨?_, ?_, ?_, ?_⟩
  · rw [HashReaderF.new, readAll_okSource, HashReaderF.into_hash]
    simp
  · intro hlen
    rw [HashReaderF.new, readAll_okSource, HashReaderF.into_hash, toHex_length, hlen]
  · rintro ⟨src, fed⟩ o rest h
    subst h
    cases o <;> simp [HashReaderF.read, ReadOutcome.delivered]
  · rintro ⟨src, fed⟩ h
    subst h
    rfl

theorem hashreader_digest_and_read_contract_witness :
    (HashReaderF.into_hash hashW0 (HashReaderF.readAll (HashReaderF.new (okSource [[1, 2], [3]])))
      = toHex (hashW0 [1, 2, 3]))
    ∧ (HashReaderF.into_hash hashW0
        (HashReaderF.readAll (HashReaderF.new (okSource [[1, 2], [3]])))).length = 128
    ∧ HashReaderF.read ⟨[.err 5, .ok [9]], [7]⟩ = (.err 5, ⟨[.ok [9]], [7]⟩)
    ∧ HashReaderF.read ⟨[], [7]⟩ = (.ok [], ⟨[], [7]⟩) := by
  refine ⟨?_, ?_, ?_, ?_⟩
  · exact (hashreader_digest_and_read_contract hashW0 [[1, 2], [3]]).1
  · exact (hashreader_digest_and_read_contract hashW0 [[1, 2], [3]]).2.1
      (fun b => by simp [hashW0])
  · simpa using (hashreader_digest_and_read_contract hashW0 []).2.2.1
      ⟨[.err 5, .ok [9]], [7]⟩ (.err 5) [.ok [9]] rfl
  · exact (hashreader_digest_and_read_contract hashW0 []).2.2.2 ⟨[], [7]⟩ rfl

/-- C9: verifying-key preparation is deterministic — preparing equal
verifying keys yields equal prepared keys — and has no observable I/O
side effect: `prepare_verifying_key` has no access to the file system
in the embedding, and the outcome class of `load_parameters` (whether
it fails, and with which diagnostic) is the same whatever preparation
function is used, since all I/O precedes preparation. -/
theorem prepare_verifying_key_deterministic_pure :
    (∀ vk₁ vk₂ : VerifyingKeyData, vk₁ = vk₂ →
      prepare_verifying_key vk₁ = prepare_verifying_key vk₂)
    ∧ (∀ (rp : Bool → List Nat → Option (Params × Nat))
        (rv : List Nat → Option (VerifyingKeyData × Nat))
        (hash : List Nat → List Nat)
        (fs : String → Option (List Nat))
        (sp op : String) (spr : Option String)
        (prep₁ prep₂ : VerifyingKeyData → PreparedKeyData),
        isError (load_parameters rp rv hash prep₁ fs sp op spr)
          = isError (load_parameters rp rv hash prep₂ fs sp op spr)
        ∧ ∀ e, load_parameters rp rv hash prep₁ fs sp op spr = .error e ↔
            load_parameters rp rv hash prep₂ fs sp op spr = .error e) := by
  constructor
  · intro vk₁ vk₂ h
    rw [h]
  · intro rp rv hash fs sp op spr prep₁ prep₂
    rcases h : load_parameters_inner rp rv hash fs sp op spr with e' | r <;>
      simp [load_parameters, h, isError, Except.map]

theorem prepare_verifying_key_deterministic_pure_witness :
    prepare_verifying_key [1] = prepare_verifying_key [1]
    ∧ isError (load_parameters rpW rvW hashW0 prepare_verifying_key fsW "spend" "output" none)
      = isError (load_parameters rpW rvW hashW0 (fun v => v) fsW "spend" "output" none) :=
  ⟨prepare_verifying_key_deterministic_pure.1 [1] [1] rfl,
    (prepare_verifying_key_deterministic_pure.2 rpW rvW hashW0 fsW "spend" "output" none
      prepare_verifying_key (fun v => v)).1⟩

/-- C10: `load_parameters` invokes the external proving-key
deserializer only with the checked flag `false`: two codecs that agree
on unchecked-mode parsing produce identical loading behaviour, however
much they differ in checked mode, so curve-point validity checking is
never requested and integrity rests on the digest comparison alone. -/
theorem load_parameters_unchecked_deserialization
    (rp rp' : Bool → List Nat → Option (Params × Nat))
    (rv : List Nat → Option (VerifyingKeyData × Nat))
    (hash : List Nat → List Nat)
    (prepare : VerifyingKeyData → PreparedKeyData)
    (fs : String → Option (List Nat))
    (sp op : String) (spr : Option String)
    (h : ∀ b, rp false b = rp' false b) :
    load_parameters rp rv hash prepare fs sp op spr =
      load_parameters rp' rv hash prepare fs sp op spr := by
  simp only [load_parameters, load_parameters_inner, h]

/-- A concrete test codec that fails every checked-mode parse but
behaves like `rpW` in unchecked mode. -/
def rpChecked : Bool → List Nat → Option (Params × Nat) := fun c b =>
  if c then none else rpW false b

theorem load_parameters_unchecked_deserialization_witness :
    rpChecked true [0] ≠ rpW true [0]
    ∧ load_parameters rpChecked rvW hashW prepare_verifying_key fsW "spend" "output" none =
      load_parameters rpW rvW hashW prepare_verifying_key fsW "spend" "output" none :=
  ⟨by decide,
    load_parameters_unchecked_deserialization rpChecked rpW rvW hashW prepare_verifying_key
      fsW "spend" "output" none (fun b => rfl)⟩

end ZcashProofs
